import Mathlib

/-!
Verification of the stayinformed.ca boundary-import scripts
(lib/db/import-boundaries.py, lib/db/import-missing.py,
lib/db/import-nunavut.py, lib/db/find-missing.py, lib/db/check-geometry.py).

The Python scripts are shallowly embedded:

* GeoJSON values (nested coordinate arrays) become the inductive type
  `JVal`; a JSON array is encoded as a cons list (`nilArr` / `consArr`)
  so that all recursions are structural and everything evaluates by
  kernel reduction.  Coordinate scalars are exact rationals built with
  `mkRat` (the scripts compare plain decimal numbers).
* A feature is its `properties` mapping (an association list of string
  keys to string values; Python `properties.get(k)` is `getProp`, and a
  Python `a or b or ...` chain over possibly-missing possibly-empty
  strings is `firstTruthy`) together with its `geometry` (type tag plus
  raw coordinates value).
* Each SQL INSERT the scripts issue is reified as an `InsertStmt`: the
  riding name and province parameters, the PostGIS geometry expression
  (`GExpr`, mirroring the nesting of ST_GeomFromGeoJSON / ST_SetSRID /
  ST_Transform / ST_Multi / ST_MakeValid / ST_Simplify in the SQL text;
  the trailing ::geography cast, common to every path, is not modelled),
  the optional WHERE ST_IsValid(...) guard, and whether the statement
  carries ON CONFLICT DO NOTHING.
* The PostGIS backend is abstract: a `Backend` supplies a boolean
  validity verdict for a geometry expression and a flag telling whether
  executing a statement on that geometry raises.  `execInsert` gives the
  store semantics of one INSERT against a table with a uniqueness
  constraint on (riding_name, province): raising statements error, a
  failed WHERE guard filters the row (zero rows), a duplicate key is
  suppressed to zero rows under ON CONFLICT DO NOTHING and errors
  otherwise, and otherwise the row is appended.
* Commit / rollback placement in the two batch drivers is modelled as a
  trace of database operations (`DbOp`).
-/

namespace StayInformed

/-- A GeoJSON-like value.  Arrays are encoded as cons lists inside the
inductive (`nilArr` is `[]`, `consArr x t` is the array with first
element `x` and remaining elements `t`) so that recursion over nesting
is structural. -/
inductive JVal where
  | num (q : Rat)
  | str (s : String)
  | nilArr
  | consArr (head tail : JVal)
  | null
  deriving DecidableEq

/-- Build a `JVal` array from a Lean list. -/
def jArr : List JVal → JVal
  | [] => .nilArr
  | x :: rest => .consArr x (jArr rest)

/-- A feature attribute mapping: string keys to string values
(absent keys are simply not in the list). -/
abbrev Props := List (String × String)

/-- Python `properties.get(k)`: `none` when the key is absent. -/
def getProp (props : Props) (k : String) : Option String :=
  props.lookup k

/-- A Python `a or b or ...` chain over optional strings: the first
value that is present and non-empty wins (`None` and `''` are falsy). -/
def firstTruthy : List (Option String) → Option String
  | [] => none
  | none :: rest => firstTruthy rest
  | some s :: rest => if s = "" then firstTruthy rest else some s

/-- The fixed PROVINCE_MAP dictionary (identical in import-boundaries.py,
import-missing.py and find-missing.py). -/
def provinceMap : List (String × String) :=
  [("10", "Newfoundland and Labrador"),
   ("11", "Prince Edward Island"),
   ("12", "Nova Scotia"),
   ("13", "New Brunswick"),
   ("24", "Quebec"),
   ("35", "Ontario"),
   ("46", "Manitoba"),
   ("47", "Saskatchewan"),
   ("48", "Alberta"),
   ("59", "British Columbia"),
   ("60", "Yukon"),
   ("61", "Northwest Territories"),
   ("62", "Nunavut")]

/-- `get_province_name` in import-boundaries.py: `PROVINCE_MAP.get(code, None)`. -/
def getProvinceName (code : String) : Option String :=
  provinceMap.lookup code

/-- The geometry member of a feature: its type tag
(`geometry.get('type', '')`) and its raw coordinates value
(`geometry.get('coordinates', [])`). -/
structure Geometry where
  type : String
  coordinates : JVal
  deriving DecidableEq

/-- One input feature: its properties mapping and its geometry. -/
structure Feature where
  properties : Props
  geometry : Geometry
  deriving DecidableEq

/-- Python `abs` on a rational number. -/
def ratAbs (q : Rat) : Rat := if q < 0 then -q else q

/-- The sampling loop of import-boundaries.py / import-missing.py:
`sample = coords[0]` followed by
`while isinstance(sample, list) and len(sample) > 0: sample = sample[0]`
descends into index 0 of nested arrays and stops at the first value that
is not a non-empty array. -/
def descend0 : JVal → JVal
  | .consArr x _ => descend0 x
  | v => v

/-- The transform decision of import-boundaries.py lines 87-97 (verbatim
again in import-missing.py lines 67-76): if the coordinates value is a
non-empty array, descend through index 0; if the value reached is a
number, the feature needs reprojection exactly when its absolute value
exceeds 180; in every other case (empty array, no scalar reached, no
coordinates) the flag stays False. -/
def needsTransform (coords : JVal) : Bool :=
  match coords with
  | .consArr x _ =>
    match descend0 x with
    | .num q => decide (180 < ratAbs q)
    | _ => false
  | _ => false

/-- Riding-name resolution of import-boundaries.py lines 63-71:
`FEDNAME or FEDENAME or FEDFNAME or ED_NAME or EDNAME or NAME or 'Unknown'`. -/
def nameB (props : Props) : String :=
  (firstTruthy
    [getProp props "FEDNAME", getProp props "FEDENAME",
     getProp props "FEDFNAME", getProp props "ED_NAME",
     getProp props "EDNAME", getProp props "NAME"]).getD "Unknown"

/-- Province resolution of import-boundaries.py lines 74-80:
`code = PRUID or PROV or ''` then
`get_province_name(code) or PRNAME or PROVINCE or 'Unknown'`. -/
def provB (props : Props) : String :=
  let code := (firstTruthy [getProp props "PRUID", getProp props "PROV"]).getD ""
  (firstTruthy
    [getProvinceName code, getProp props "PRNAME",
     getProp props "PROVINCE"]).getD "Unknown"

/-- The (riding_name, province) identity a feature receives in
import-boundaries.py `import_feature`. -/
def importIdentity (props : Props) : String × String :=
  (nameB props, provB props)

/-- Riding-name resolution of import-missing.py lines 52-57:
`FEDNAME or FEDENAME or FEDFNAME or 'Unknown'`. -/
def nameM (props : Props) : String :=
  (firstTruthy
    [getProp props "FEDNAME", getProp props "FEDENAME",
     getProp props "FEDFNAME"]).getD "Unknown"

/-- Province resolution of import-missing.py lines 59-60:
`code = PRUID or ''` then `PROVINCE_MAP.get(code, 'Unknown')`. -/
def provM (props : Props) : String :=
  (getProvinceName ((firstTruthy [getProp props "PRUID"]).getD "")).getD "Unknown"

/-- A PostGIS geometry expression, mirroring the nesting of the SQL
texts in the scripts.  `src g` stands for
`ST_GeomFromGeoJSON(json.dumps(g))`. -/
inductive GExpr where
  | src (g : Geometry)
  | setSRID (e : GExpr) (srid : Nat)
  | transform (e : GExpr) (srid : Nat)
  | multi (e : GExpr)
  | makeValid (e : GExpr)
  | simplify (e : GExpr) (tol : Rat)
  deriving DecidableEq

/-- One INSERT INTO riding_boundaries statement as issued by the
scripts: its two text parameters, its geometry expression, its optional
`WHERE ST_IsValid(...)` guard expression, whether it ends in
ON CONFLICT DO NOTHING, and whether it has a RETURNING id clause. -/
structure InsertStmt where
  ridingName : String
  province : String
  geomExpr : GExpr
  validGuard : Option GExpr
  onConflictDoNothing : Bool
  returningId : Bool
  deriving DecidableEq

/-- The transform-path geometry expression shared verbatim by
import-boundaries.py lines 110-169 and import-missing.py lines 89-148:
`ST_MakeValid(ST_Transform(ST_SetSRID(g, 3978), 4326))` when the type
tag is already MultiPolygon, with an extra `ST_Multi` around the SetSRID
otherwise. -/
def transformedExpr (g : Geometry) : GExpr :=
  if g.type = "MultiPolygon" then
    .makeValid (.transform (.setSRID (.src g) 3978) 4326)
  else
    .makeValid (.transform (.multi (.setSRID (.src g) 3978)) 4326)

/-- The statement import-boundaries.py `import_feature` executes: on the
transform paths the geometry expression also appears under
`WHERE ST_IsValid(...)` and the statement ends in ON CONFLICT DO
NOTHING; on the no-transform path (lines 172-180) the geometry is
`ST_Multi(ST_GeomFromGeoJSON(g))` inserted with no validity guard, still
with ON CONFLICT DO NOTHING. -/
def importBoundariesStmt (f : Feature) : InsertStmt :=
  if needsTransform f.geometry.coordinates then
    { ridingName := nameB f.properties
      province := provB f.properties
      geomExpr := transformedExpr f.geometry
      validGuard := some (transformedExpr f.geometry)
      onConflictDoNothing := true
      returningId := false }
  else
    { ridingName := nameB f.properties
      province := provB f.properties
      geomExpr := .multi (.src f.geometry)
      validGuard := none
      onConflictDoNothing := true
      returningId := false }

/-- The statement import-missing.py `import_feature` executes: same
geometry expressions as import-boundaries.py, but the statements end in
RETURNING id and carry no ON CONFLICT clause; the no-transform path
(lines 150-158) again has no validity guard. -/
def importMissingStmt (f : Feature) : InsertStmt :=
  if needsTransform f.geometry.coordinates then
    { ridingName := nameM f.properties
      province := provM f.properties
      geomExpr := transformedExpr f.geometry
      validGuard := some (transformedExpr f.geometry)
      onConflictDoNothing := false
      returningId := true }
  else
    { ridingName := nameM f.properties
      province := provM f.properties
      geomExpr := .multi (.src f.geometry)
      validGuard := none
      onConflictDoNothing := false
      returningId := true }

/-- First attempt of import-nunavut.py (lines 75-93):
`ST_MakeValid(ST_Simplify(ST_Transform(ST_SetSRID(g, 3978), 4326), 0.001))`. -/
def nunavutExpr1 (g : Geometry) : GExpr :=
  .makeValid (.simplify (.transform (.setSRID (.src g) 3978) 4326) (mkRat 1 1000))

/-- Fallback attempt of import-nunavut.py (lines 109-124):
`ST_MakeValid(ST_Transform(ST_SetSRID(g, 3978), 4326))`. -/
def nunavutExpr2 (g : Geometry) : GExpr :=
  .makeValid (.transform (.setSRID (.src g) 3978) 4326)

/-- The first INSERT of import-nunavut.py: no guard, no conflict clause,
RETURNING id. -/
def nunavutStmt1 (name prov : String) (g : Geometry) : InsertStmt :=
  { ridingName := name, province := prov, geomExpr := nunavutExpr1 g
    validGuard := none, onConflictDoNothing := false, returningId := true }

/-- The fallback INSERT of import-nunavut.py: no guard, no conflict
clause, RETURNING id. -/
def nunavutStmt2 (name prov : String) (g : Geometry) : InsertStmt :=
  { ridingName := name, province := prov, geomExpr := nunavutExpr2 g
    validGuard := none, onConflictDoNothing := false, returningId := true }

/-- One persisted row of the riding_boundaries table (the geometry
column holds the expression whose evaluation was stored). -/
structure Row where
  ridingName : String
  province : String
  geom : GExpr
  deriving DecidableEq

/-- The riding_boundaries table content. -/
abbrev Store := List Row

/-- Whether the store already holds the (riding_name, province) key
(the uniqueness constraint of the table). -/
def hasKey (s : Store) (name prov : String) : Bool :=
  s.any fun r => r.ridingName == name && r.province == prov

/-- The abstract PostGIS backend: `isValid e` is the ST_IsValid verdict
on the evaluation of `e`, and `raises e` tells whether executing a
statement built on `e` raises (GEOS error, timeout, ...). -/
structure Backend where
  isValid : GExpr → Bool
  raises : GExpr → Bool

/-- Result of executing one INSERT: number of rows affected and the
resulting table, or a raised error. -/
inductive ExecResult where
  | ok (rows : Nat) (store : Store)
  | err (msg : String)
  deriving DecidableEq

/-- Error text of a unique-constraint violation. -/
def dupMsg : String := "duplicate key value violates unique constraint"

/-- Whether the WHERE ST_IsValid guard of a statement lets the row
through (a statement with no guard always passes). -/
def guardPass (b : Backend) (st : InsertStmt) : Bool :=
  match st.validGuard with
  | none => true
  | some g => b.isValid g

/-- Store semantics of one INSERT INTO riding_boundaries: a raising
statement errors; a failed WHERE ST_IsValid guard filters the row (zero
rows affected); a duplicate (riding_name, province) key yields zero rows
under ON CONFLICT DO NOTHING and a raised unique-violation otherwise;
otherwise one row is appended. -/
def execInsert (b : Backend) (s : Store) (st : InsertStmt) : ExecResult :=
  if b.raises st.geomExpr then .err "geometry processing error"
  else if guardPass b st then
    if hasKey s st.ridingName st.province then
      if st.onConflictDoNothing then .ok 0 s else .err dupMsg
    else .ok 1 (s ++ [⟨st.ridingName, st.province, st.geomExpr⟩])
  else .ok 0 s

/-- import-boundaries.py `import_feature`: executes its single INSERT
and returns True unless the statement raised (the except branch returns
False); the row count is never inspected. -/
def importFeatureB (b : Backend) (s : Store) (f : Feature) : Bool × Store :=
  match execInsert b s (importBoundariesStmt f) with
  | .ok _ s1 => (true, s1)
  | .err _ => (false, s)

/-- The batch loop of import-boundaries.py `main` (lines 223-233):
fold over the features, counting True results as imported and False
results as errors, threading the cursor state. -/
def importBoundariesMain (b : Backend) (fs : List Feature) : Nat × Nat × Store :=
  fs.foldl
    (fun acc f =>
      let r := importFeatureB b acc.2.2 f
      if r.1 then (acc.1 + 1, acc.2.1, r.2) else (acc.1, acc.2.1 + 1, r.2))
    (0, 0, [])

/-- import-nunavut.py `main` (lines 72-135): execute the simplifying
INSERT; on at least one returned row, commit; on zero rows, roll back
and stop; on a raised error, roll back and execute the fallback INSERT
with the same commit / rollback handling.  Returns the committed store
and the list of geometry expressions whose statements were executed, in
order. -/
def nunavutRun (b : Backend) (s : Store) (name prov : String) (g : Geometry) :
    Store × List GExpr :=
  match execInsert b s (nunavutStmt1 name prov g) with
  | .ok 0 _ => (s, [nunavutExpr1 g])
  | .ok _ s1 => (s1, [nunavutExpr1 g])
  | .err _ =>
    match execInsert b s (nunavutStmt2 name prov g) with
    | .ok 0 _ => (s, [nunavutExpr1 g, nunavutExpr2 g])
    | .ok _ s2 => (s2, [nunavutExpr1 g, nunavutExpr2 g])
    | .err _ => (s, [nunavutExpr1 g, nunavutExpr2 g])

/-- Whether a geometry expression contains an ST_Simplify call. -/
def usesSimplify : GExpr → Bool
  | .src _ => false
  | .setSRID e _ => usesSimplify e
  | .transform e _ => usesSimplify e
  | .multi e => usesSimplify e
  | .makeValid e => usesSimplify e
  | .simplify _ _ => true

/-- Whether a geometry expression contains an ST_MakeValid call. -/
def usesMakeValid : GExpr → Bool
  | .src _ => false
  | .setSRID e _ => usesMakeValid e
  | .transform e _ => usesMakeValid e
  | .multi e => usesMakeValid e
  | .makeValid _ => true
  | .simplify e _ => usesMakeValid e

/-- Whether a geometry expression contains an ST_Transform call. -/
def usesTransform : GExpr → Bool
  | .src _ => false
  | .setSRID e _ => usesTransform e
  | .transform _ _ => true
  | .multi e => usesTransform e
  | .makeValid e => usesTransform e
  | .simplify e _ => usesTransform e

/-- Whether a geometry expression contains `ST_SetSRID(_, n)`. -/
def usesSetSRID (n : Nat) : GExpr → Bool
  | .src _ => false
  | .setSRID e k => k == n || usesSetSRID n e
  | .transform e _ => usesSetSRID n e
  | .multi e => usesSetSRID n e
  | .makeValid e => usesSetSRID n e
  | .simplify e _ => usesSetSRID n e

/-- Number of ST_Multi wraps in a geometry expression. -/
def multiWraps : GExpr → Nat
  | .src _ => 0
  | .setSRID e _ => multiWraps e
  | .transform e _ => multiWraps e
  | .multi e => multiWraps e + 1
  | .makeValid e => multiWraps e
  | .simplify e _ => multiWraps e

/-- One database-transaction-relevant operation of a batch driver. -/
inductive DbOp where
  | ins
  | com
  | rol
  deriving DecidableEq

/-- Transaction trace of the import-missing.py batch loop (lines
206-212): per feature, the INSERT executed inside `import_feature`, then
`conn.commit()` when it returned True and `conn.rollback()` when it
returned False. -/
def importMissingTrace : List Bool → List DbOp
  | [] => []
  | true :: rest => .ins :: .com :: importMissingTrace rest
  | false :: rest => .ins :: .rol :: importMissingTrace rest

/-- Transaction trace of the import-boundaries.py batch loop (lines
227-235): one INSERT per feature with no commit or rollback in between,
then a single `conn.commit()` after the loop. -/
def importBoundariesTrace (rs : List Bool) : List DbOp :=
  rs.map (fun _ => DbOp.ins) ++ [DbOp.com]

/-- The per-feature transaction discipline: every INSERT is immediately
followed by its own commit or rollback. -/
def perFeatureCommit : List DbOp → Bool
  | [] => true
  | .ins :: .com :: rest => perFeatureCommit rest
  | .ins :: .rol :: rest => perFeatureCommit rest
  | .ins :: _ => false
  | .com :: rest => perFeatureCommit rest
  | .rol :: rest => perFeatureCommit rest

/-- The StoreIndex key encoding of find-missing.py lines 70, 83 and 129:
the two parts joined by a bar. -/
def storeKey (name prov : String) : String := name ++ "|" ++ prov

/-- The StoreIndex of find-missing.py line 70: the set of keys built
from the stored (riding_name, province) rows. -/
def dbSetOf (rows : List (String × String)) : List String :=
  rows.map fun r => storeKey r.1 r.2

/-- Riding-name resolution of the missing-check of find-missing.py line
78: `FEDNAME or FEDENAME or FEDFNAME or 'Unknown'`. -/
def nameFM (props : Props) : String :=
  (firstTruthy
    [getProp props "FEDNAME", getProp props "FEDENAME",
     getProp props "FEDFNAME"]).getD "Unknown"

/-- Province resolution of the missing-check of find-missing.py lines
79-80: `code = PRUID or ''` then `PROVINCE_MAP.get(code, 'Unknown')`. -/
def provFM (props : Props) : String :=
  (getProvinceName ((firstTruthy [getProp props "PRUID"]).getD "")).getD "Unknown"

/-- The key the missing-check of find-missing.py line 83 tests against
the StoreIndex. -/
def missingKeyOf (props : Props) : String :=
  storeKey (nameFM props) (provFM props)

/-- Riding-name resolution of the source-side duplicate count of
find-missing.py line 127: `FEDNAME or FEDENAME or 'Unknown'`
(no FEDFNAME fallback). -/
def dupNameFM (props : Props) : String :=
  (firstTruthy [getProp props "FEDNAME", getProp props "FEDENAME"]).getD "Unknown"

/-- The key counted by the source-side duplicate check of
find-missing.py lines 128-129: the name joined with the raw PRUID code
(`key = name + bar + code`), not with the mapped province name. -/
def dupKeyOf (props : Props) : String :=
  storeKey (dupNameFM props) ((firstTruthy [getProp props "PRUID"]).getD "")

/-- Following the wording of the spec (sections 3 and 4.4): the
canonical dedup key is the exact (region_name, parent_region) pair of
the resolved identity, rendered as the StoreIndex string: region name
from the ordered name-field list, parent region from the code-to-name
table with the Unknown sentinel. -/
def specCanonicalKey (props : Props) : String :=
  storeKey (nameFM props) (provFM props)

/-- A backend on which every geometry is valid and nothing raises. -/
def validBackend : Backend := ⟨fun _ => true, fun _ => false⟩

/-- A backend on which no geometry is valid and nothing raises. -/
def invalidBackend : Backend := ⟨fun _ => false, fun _ => false⟩

/-- Already-geographic sample coordinates (first scalar -75.5). -/
def geoCoords : JVal :=
  jArr [jArr [jArr [JVal.num (mkRat (-755) 10), JVal.num (mkRat 454 10)]]]

/-- Projected sample coordinates (first scalar 1500000.2). -/
def projCoords : JVal :=
  jArr [jArr [jArr [JVal.num (mkRat 15000002 10), JVal.num (mkRat 3000005 10)]]]

/-- A single-part polygon geometry in projected coordinates. -/
def projPolyGeom : Geometry := ⟨"Polygon", projCoords⟩

/-- A multi-part geometry in projected coordinates. -/
def projMultiGeom : Geometry := ⟨"MultiPolygon", projCoords⟩

/-- A feature with geographic coordinates (no reprojection needed). -/
def geoPolyFeature : Feature :=
  ⟨[("FEDNAME", "Test Riding"), ("PRUID", "35")], ⟨"Polygon", geoCoords⟩⟩

/-- A single-part feature with projected coordinates. -/
def projPolyFeature : Feature :=
  ⟨[("FEDNAME", "Test Riding"), ("PRUID", "35")], projPolyGeom⟩

/-- A multi-part feature with projected coordinates. -/
def projMultiFeature : Feature :=
  ⟨[("FEDNAME", "Test Riding"), ("PRUID", "35")], projMultiGeom⟩

/-- A store already holding the key ("Test Riding", "Ontario"). -/
def dupStore : Store :=
  [⟨"Test Riding", "Ontario", GExpr.multi (GExpr.src ⟨"Polygon", geoCoords⟩)⟩]

/-- A properties mapping whose only name attribute is FEDFNAME. -/
def fedfOnlyProps : Props := [("FEDFNAME", "Abitibi"), ("PRUID", "35")]

/-- Rows appended by a statement whose guard is exactly its geometry
expression passed the validity predicate: the guard evaluated to true,
and the appended row carries that very expression. -/
theorem execInsert_guard_valid (b : Backend) (s : Store) (st : InsertStmt)
    (n : Nat) (s1 : Store) (hg : st.validGuard = some st.geomExpr)
    (h : execInsert b s st = ExecResult.ok n s1) :
    ∀ r, r ∈ s1 → r ∈ s ∨ b.isValid r.geom = true := by
  intro r hr
  unfold execInsert at h
  by_cases hraise : b.raises st.geomExpr
  · simp [hraise] at h
  · rw [if_neg (by simp [hraise])] at h
    by_cases hp : guardPass b st
    · rw [if_pos hp] at h
      have hv : b.isValid st.geomExpr = true := by
        simpa [guardPass, hg] using hp
      by_cases hk : hasKey s st.ridingName st.province
      · rw [if_pos hk] at h
        by_cases hc : st.onConflictDoNothing
        · rw [if_pos hc] at h
          injection h with h1 h2
          subst h2
          exact Or.inl hr
        · simp [hc] at h
      · rw [if_neg hk] at h
        injection h with h1 h2
        subst h2
        rcases List.mem_append.mp hr with h3 | h3
        · exact Or.inl h3
        · right
          have : r = ⟨st.ridingName, st.province, st.geomExpr⟩ := by
            simpa using h3
          rw [this]
          exact hv
    · rw [if_neg hp] at h
      injection h with h1 h2
      subst h2
      exact Or.inl hr

/-- C1 counterexample: the no-reprojection insert path of
import-boundaries.py (lines 172-180) has no ST_IsValid guard, so on a
backend under which the geometry is invalid the row is persisted
anyway: the claim that every insert path checks validity is false. -/
theorem C1_counterexample :
    execInsert invalidBackend [] (importBoundariesStmt geoPolyFeature) =
      ExecResult.ok 1
        [Row.mk "Test Riding" "Ontario"
          (GExpr.multi (GExpr.src (Geometry.mk "Polygon" geoCoords)))] ∧
    invalidBackend.isValid
      (GExpr.multi (GExpr.src (Geometry.mk "Polygon" geoCoords))) = false := by
  constructor
  · decide
  · decide

/-- C1 amended: on the reprojection insert paths of import-boundaries.py
and import-missing.py (needs_transform true) the INSERT carries a
WHERE ST_IsValid guard on exactly the inserted geometry expression, so
every row those statements add to the store passes the validity
predicate at the moment of persistence; the non-reprojection paths (and
the import-nunavut.py inserts) persist with no validity check. -/
theorem C1_amended (b : Backend) (s : Store) (f : Feature) (n m : Nat)
    (sb sm : Store) (hT : needsTransform f.geometry.coordinates = true) :
    (execInsert b s (importBoundariesStmt f) = ExecResult.ok n sb →
      ∀ r, r ∈ sb → r ∈ s ∨ b.isValid r.geom = true) ∧
    (execInsert b s (importMissingStmt f) = ExecResult.ok m sm →
      ∀ r, r ∈ sm → r ∈ s ∨ b.isValid r.geom = true) := by
  constructor
  · intro h
    exact execInsert_guard_valid b s _ n sb (by simp [importBoundariesStmt, hT]) h
  · intro h
    exact execInsert_guard_valid b s _ m sm (by simp [importMissingStmt, hT]) h

/-- C1 witness: concrete instance of the amended theorem on the
reprojection path with an all-valid backend and an empty store. -/
theorem C1_witness :
    Row.mk "Test Riding" "Ontario" (transformedExpr projPolyGeom) ∈ ([] : Store) ∨
      validBackend.isValid
        (Row.mk "Test Riding" "Ontario" (transformedExpr projPolyGeom)).geom = true := by
  have h := (C1_amended validBackend [] projPolyFeature 1 1
      [Row.mk "Test Riding" "Ontario" (transformedExpr projPolyGeom)]
      [Row.mk "Test Riding" "Ontario" (transformedExpr projPolyGeom)]
      (by decide)).1 (by decide)
  exact h (Row.mk "Test Riding" "Ontario" (transformedExpr projPolyGeom)) (by decide)

/-- C2 counterexample: in a two-feature import-boundaries.py batch where
both features succeed, the transaction trace is insert, insert, commit:
the first feature is not committed on its own success, so persistence is
not transactionally isolated per feature in that driver. -/
theorem C2_counterexample :
    perFeatureCommit (importBoundariesTrace [true, true]) = false := by decide

/-- C2 amended: import-missing.py does use one discrete transaction per
feature (every INSERT is immediately followed by its own commit on
success or rollback on failure), but import-boundaries.py runs the whole
batch in a single transaction: its trace contains exactly one commit and
that commit is the final operation, after every insert of the batch. -/
theorem C2_amended :
    (∀ rs : List Bool, perFeatureCommit (importMissingTrace rs) = true) ∧
    (∀ rs : List Bool, (importBoundariesTrace rs).count DbOp.com = 1 ∧
      (importBoundariesTrace rs).getLast? = some DbOp.com) := by
  constructor
  · intro rs
    induction rs with
    | nil => rfl
    | cons head tail ih => cases head <;> simp [importMissingTrace, perFeatureCommit, ih]
  · intro rs
    constructor
    · unfold importBoundariesTrace
      rw [List.count_append]
      have h0 : (rs.map fun _ => DbOp.ins).count DbOp.com = 0 := by
        induction rs with
        | nil => rfl
        | cons h t ih => simpa [List.count_cons] using ih
      rw [h0]
      rfl
    · unfold importBoundariesTrace
      exact List.getLast?_concat _

/-- C3 counterexample: on a backend under which every geometry is valid
and nothing raises, import-nunavut.py still executes and persists the
simplifying statement as its first and only attempt, although the
validity-fix alone (the fallback expression) is already valid on that
backend: simplification is applied to a geometry that the validity-fix
alone already makes valid, contradicting the claimed strategy order. -/
theorem C3_counterexample :
    validBackend.isValid (nunavutExpr2 projMultiGeom) = true ∧
    (nunavutRun validBackend [] "Nunavut" "Nunavut" projMultiGeom).2 =
      [nunavutExpr1 projMultiGeom] ∧
    usesSimplify (nunavutExpr1 projMultiGeom) = true ∧
    (nunavutRun validBackend [] "Nunavut" "Nunavut" projMultiGeom).1 =
      [Row.mk "Nunavut" "Nunavut" (nunavutExpr1 projMultiGeom)] := by
  refine ⟨rfl, by decide, rfl, by decide⟩

/-- C3 amended: the repair strategies are applied in the opposite order
to the claim: import-nunavut.py always attempts
reprojection + simplification + validity-fix first and falls back to
reprojection + validity-fix alone only when the first statement raises
(never because of a validity re-check: with no raised error and no
duplicate key the simplifying attempt is the only one executed), while
import-boundaries.py applies the validity-fix unconditionally inside a
single guarded statement and has no simplification stage at all. -/
theorem C3_amended :
    (∀ g : Geometry, usesSimplify (nunavutExpr1 g) = true ∧
      usesMakeValid (nunavutExpr1 g) = true ∧
      usesSimplify (nunavutExpr2 g) = false ∧
      usesMakeValid (nunavutExpr2 g) = true) ∧
    (∀ (b : Backend) (s : Store) (name prov : String) (g : Geometry),
      ((nunavutRun b s name prov g).2).head? = some (nunavutExpr1 g)) ∧
    (∀ (b : Backend) (s : Store) (name prov : String) (g : Geometry),
      b.raises (nunavutExpr1 g) = false → hasKey s name prov = false →
      (nunavutRun b s name prov g).2 = [nunavutExpr1 g]) ∧
    (∀ f : Feature, usesSimplify (importBoundariesStmt f).geomExpr = false ∧
      usesMakeValid (importBoundariesStmt f).geomExpr =
        needsTransform f.geometry.coordinates) := by
  refine ⟨fun g => ⟨rfl, rfl, rfl, rfl⟩, ?_, ?_, ?_⟩
  · intro b s name prov g
    unfold nunavutRun
    split
    · rfl
    · rfl
    · split <;> rfl
  · intro b s name prov g h1 h2
    have hx : execInsert b s (nunavutStmt1 name prov g) =
        ExecResult.ok 1 (s ++ [⟨name, prov, nunavutExpr1 g⟩]) := by
      unfold execInsert
      simp [nunavutStmt1, guardPass, h1, h2]
    unfold nunavutRun
    rw [hx]
  · intro f
    by_cases hT : needsTransform f.geometry.coordinates
    · constructor
      · simp only [importBoundariesStmt, hT, if_true]
        unfold transformedExpr
        split <;> rfl
      · simp only [importBoundariesStmt, hT, if_true]
        unfold transformedExpr
        split <;> rfl
    · constructor
      · simp [importBoundariesStmt, hT, usesSimplify]
      · simp [importBoundariesStmt, hT, usesMakeValid]

/-- C3 witness: concrete instance of the amended theorem: with no raised
error and no duplicate key, the simplifying attempt is the only
statement import-nunavut.py executes. -/
theorem C3_witness :
    (nunavutRun validBackend [] "Riding A" "Province B" projMultiGeom).2 =
      [nunavutExpr1 projMultiGeom] :=
  C3_amended.2.2.1 validBackend [] "Riding A" "Province B" projMultiGeom rfl rfl

/-- C4 counterexample: inserting a feature whose (riding_name, province)
key is already stored raises a unique-violation error on the
import-missing.py path, whose INSERT has no ON CONFLICT clause, while
the same feature on the import-boundaries.py path is suppressed to zero
rows: the claim that no insert path raises on duplicates is false. -/
theorem C4_counterexample :
    execInsert validBackend dupStore (importMissingStmt geoPolyFeature) =
      ExecResult.err dupMsg ∧
    execInsert validBackend dupStore (importBoundariesStmt geoPolyFeature) =
      ExecResult.ok 0 dupStore := by
  constructor
  · decide
  · decide

/-- C4 amended: only import-boundaries.py attaches ON CONFLICT DO
NOTHING: there a duplicate-key insert is suppressed to zero rows
affected, leaves the store unchanged and is reported to the caller as a
True (success) outcome, not an error; the import-missing.py and
import-nunavut.py statements carry no conflict clause, so a duplicate
key raises a unique-violation error there. -/
theorem C4_amended (b : Backend) (s : Store) (f : Feature)
    (hr : b.raises (importBoundariesStmt f).geomExpr = false)
    (hk : hasKey s (nameB f.properties) (provB f.properties) = true) :
    execInsert b s (importBoundariesStmt f) = ExecResult.ok 0 s ∧
    importFeatureB b s f = (true, s) ∧
    (importBoundariesStmt f).onConflictDoNothing = true ∧
    (importMissingStmt f).onConflictDoNothing = false ∧
    (nunavutStmt1 (nameB f.properties) (provB f.properties) f.geometry).onConflictDoNothing
      = false ∧
    (∀ (b2 : Backend) (s2 : Store) (f2 : Feature),
      b2.raises (importMissingStmt f2).geomExpr = false →
      needsTransform f2.geometry.coordinates = false →
      hasKey s2 (nameM f2.properties) (provM f2.properties) = true →
      execInsert b2 s2 (importMissingStmt f2) = ExecResult.err dupMsg) := by
  have hname : (importBoundariesStmt f).ridingName = nameB f.properties := by
    unfold importBoundariesStmt
    split <;> rfl
  have hprov : (importBoundariesStmt f).province = provB f.properties := by
    unfold importBoundariesStmt
    split <;> rfl
  have hconf : (importBoundariesStmt f).onConflictDoNothing = true := by
    unfold importBoundariesStmt
    split <;> rfl
  have hkey : hasKey s (importBoundariesStmt f).ridingName
      (importBoundariesStmt f).province = true := by
    rw [hname, hprov]
    exact hk
  have hmain : execInsert b s (importBoundariesStmt f) = ExecResult.ok 0 s := by
    unfold execInsert
    rw [if_neg (by simp [hr])]
    by_cases hp : guardPass b (importBoundariesStmt f)
    · rw [if_pos hp, if_pos hkey, if_pos hconf]
    · rw [if_neg hp]
  refine ⟨hmain, ?_, hconf, ?_, rfl, ?_⟩
  · unfold importFeatureB
    rw [hmain]
  · unfold importMissingStmt
    split <;> rfl
  · intro b2 s2 f2 h1 h2 h3
    rw [importMissingStmt, if_neg (by simp [h2])] at h1 ⊢
    unfold execInsert
    rw [if_neg (by simpa using h1)]
    simp [guardPass, h3]

/-- C4 witness: concrete instance of the amended theorem: the duplicate
insert on the import-boundaries.py path is counted as a success and
leaves the store unchanged. -/
theorem C4_witness :
    importFeatureB validBackend dupStore geoPolyFeature = (true, dupStore) :=
  (C4_amended validBackend dupStore geoPolyFeature (by decide) (by decide)).2.1

/-- C5 counterexample: for a feature whose only name attribute is
FEDFNAME, the missing-check of find-missing.py uses the key
"Abitibi|Ontario" (FEDFNAME fallback, mapped province name) while the
source-side duplicate count uses the key "Unknown|35" (no FEDFNAME
fallback, raw PRUID code): the two computations do not use the same
identity-derived key. -/
theorem C5_counterexample :
    missingKeyOf fedfOnlyProps = "Abitibi|Ontario" ∧
    dupKeyOf fedfOnlyProps = "Unknown|35" ∧
    missingKeyOf fedfOnlyProps ≠ dupKeyOf fedfOnlyProps := by
  refine ⟨by decide, by decide, by decide⟩

/-- C5 amended: the missing-check of find-missing.py does use the
canonical (region_name, parent_region) dedup key, case- and
whitespace-sensitively, but the source-side duplicate count uses a
different key: the name resolved without the FEDFNAME fallback joined
with the raw PRUID code instead of the mapped province name, so the two
reconciliation passes disagree on features such as `fedfOnlyProps`. -/
theorem C5_amended :
    (∀ props : Props, missingKeyOf props = specCanonicalKey props) ∧
    dupKeyOf fedfOnlyProps ≠ specCanonicalKey fedfOnlyProps ∧
    dupNameFM fedfOnlyProps = "Unknown" ∧
    nameFM fedfOnlyProps = "Abitibi" := by
  refine ⟨fun _ => rfl, by decide, by decide, by decide⟩

/-- C6 confirmed: the transform plan is decided by single-sample
magnitude: needs_transform is true exactly when descending through the
nested coordinate arrays at index 0 reaches a numeric scalar whose
absolute value exceeds 180; the sample -75.5 yields false, the sample
1500000.2 yields true, and empty or malformed coordinate values (empty
array, non-numeric leaf) always yield false; when the flag is true the
statement built by import-boundaries.py reprojects with source SRID
3978, and when it is false the statement contains no ST_Transform. -/
theorem C6_transformPlan :
    (∀ coords : JVal, needsTransform coords = true ↔
      ∃ x rest q, coords = JVal.consArr x rest ∧ descend0 x = JVal.num q ∧
        180 < ratAbs q) ∧
    needsTransform geoCoords = false ∧
    needsTransform projCoords = true ∧
    needsTransform (jArr []) = false ∧
    (∀ s rest, needsTransform (JVal.consArr (JVal.str s) rest) = false) ∧
    (∀ rest, needsTransform (JVal.consArr JVal.nilArr rest) = false) ∧
    (∀ f : Feature, needsTransform f.geometry.coordinates = true →
      usesSetSRID 3978 (importBoundariesStmt f).geomExpr = true ∧
      usesTransform (importBoundariesStmt f).geomExpr = true) ∧
    (∀ f : Feature, needsTransform f.geometry.coordinates = false →
      usesTransform (importBoundariesStmt f).geomExpr = false) := by
  refine ⟨?_, by decide, by decide, rfl, fun s rest => rfl, fun rest => rfl, ?_, ?_⟩
  · intro coords
    constructor
    · intro h
      cases coords with
      | consArr x rest =>
        cases hd : descend0 x with
        | num q =>
          refine ⟨x, rest, q, rfl, hd, ?_⟩
          simp only [needsTransform, hd] at h
          exact of_decide_eq_true h
        | str s => simp [needsTransform, hd] at h
        | nilArr => simp [needsTransform, hd] at h
        | consArr a b => simp [needsTransform, hd] at h
        | null => simp [needsTransform, hd] at h
      | num q => simp [needsTransform] at h
      | str s => simp [needsTransform] at h
      | nilArr => simp [needsTransform] at h
      | null => simp [needsTransform] at h
    · rintro ⟨x, rest, q, rfl, hd, hq⟩
      simp [needsTransform, hd, hq]
  · intro f hT
    constructor
    · simp only [importBoundariesStmt, hT, if_true]
      unfold transformedExpr
      split <;> rfl
    · simp only [importBoundariesStmt, hT, if_true]
      unfold transformedExpr
      split <;> rfl
  · intro f hT
    simp [importBoundariesStmt, hT, usesTransform]

/-- C6 witness: concrete instance on the projected sample feature: the
built statement reprojects with source SRID 3978. -/
theorem C6_witness :
    usesSetSRID 3978 (importBoundariesStmt projPolyFeature).geomExpr = true ∧
    usesTransform (importBoundariesStmt projPolyFeature).geomExpr = true :=
  C6_transformPlan.2.2.2.2.2.2.1 projPolyFeature (by decide)

/-- C7 confirmed: identity resolution in import-boundaries.py is a total
function on attribute mappings: the empty mapping resolves to
("Unknown", "Unknown"); a non-empty FEDNAME (the first candidate of the
ordered name-field list) always wins; province code "35" resolves to
"Ontario" through the 13-entry code-to-name table, and the unmapped code
"99" with no PRNAME or PROVINCE attribute falls back to "Unknown". -/
theorem C7_identityTotal :
    importIdentity [] = ("Unknown", "Unknown") ∧
    (∀ (props : Props) (n : String), getProp props "FEDNAME" = some n → n ≠ "" →
      (importIdentity props).1 = n) ∧
    (importIdentity [("PRUID", "35")]).2 = "Ontario" ∧
    (importIdentity [("PRUID", "99")]).2 = "Unknown" ∧
    provinceMap.length = 13 := by
  refine ⟨by decide, ?_, by decide, by decide, by decide⟩
  intro props n h hn
  simp [importIdentity, nameB, h, firstTruthy, hn]

/-- C7 witness: concrete instance: a present non-empty FEDNAME is taken
as the region name. -/
theorem C7_witness :
    (importIdentity [("FEDNAME", "Carleton"), ("PRUID", "24")]).1 = "Carleton" :=
  C7_identityTotal.2.1 [("FEDNAME", "Carleton"), ("PRUID", "24")] "Carleton"
    (by decide) (by decide)

/-- C8 counterexample: the import-nunavut.py path reprojects (its
statement contains ST_Transform) but applies no multi-part coercion at
all: run on a single-part Polygon geometry, it persists a row whose
geometry expression contains zero ST_Multi wraps, so the coercion is
skipped for a single-part polygon that requires reprojection. -/
theorem C8_counterexample :
    projPolyGeom.type = "Polygon" ∧
    usesTransform (nunavutExpr1 projPolyGeom) = true ∧
    multiWraps (nunavutExpr1 projPolyGeom) = 0 ∧
    (nunavutRun validBackend [] "Nunavut" "Nunavut" projPolyGeom).1 =
      [Row.mk "Nunavut" "Nunavut" (nunavutExpr1 projPolyGeom)] := by
  refine ⟨rfl, rfl, rfl, by decide⟩

/-- C8 amended: in import-boundaries.py and import-missing.py the
coercion is exact: on the reprojection path a non-MultiPolygon input
receives exactly one ST_Multi wrap and an already-MultiPolygon input
receives none (never double-wrapped); the import-nunavut.py statements,
which always reproject, apply no multi-part coercion at all. -/
theorem C8_amended (f : Feature)
    (hT : needsTransform f.geometry.coordinates = true) :
    (f.geometry.type ≠ "MultiPolygon" →
      multiWraps (importBoundariesStmt f).geomExpr = 1 ∧
      multiWraps (importMissingStmt f).geomExpr = 1) ∧
    (f.geometry.type = "MultiPolygon" →
      multiWraps (importBoundariesStmt f).geomExpr = 0 ∧
      multiWraps (importMissingStmt f).geomExpr = 0) ∧
    (∀ g : Geometry, multiWraps (nunavutExpr1 g) = 0 ∧
      multiWraps (nunavutExpr2 g) = 0) := by
  refine ⟨?_, ?_, fun g => ⟨rfl, rfl⟩⟩
  · intro hm
    constructor
    · simp [importBoundariesStmt, hT, transformedExpr, hm, multiWraps]
    · simp [importMissingStmt, hT, transformedExpr, hm, multiWraps]
  · intro hm
    constructor
    · simp [importBoundariesStmt, hT, transformedExpr, hm, multiWraps]
    · simp [importMissingStmt, hT, transformedExpr, hm, multiWraps]

/-- C8 witness: concrete instance of the amended theorem: an
already-MultiPolygon feature on the reprojection path is never wrapped. -/
theorem C8_witness :
    multiWraps (importBoundariesStmt projMultiFeature).geomExpr = 0 ∧
    multiWraps (importMissingStmt projMultiFeature).geomExpr = 0 :=
  (C8_amended projMultiFeature (by decide)).2.1 rfl

/-- C9 confirmed: import-boundaries.py `import_feature` returns True
whenever its INSERT executes without raising, whatever the number of
rows affected; consequently the run-end Imported count can exceed the
rows actually written: a batch whose single feature is filtered by the
validity guard reports one imported feature and an empty store, and a
two-feature batch whose second feature is a suppressed duplicate reports
two imported features with a single stored row. -/
theorem C9_importedOvercount :
    (∀ (b : Backend) (s : Store) (f : Feature) (n : Nat) (s1 : Store),
      execInsert b s (importBoundariesStmt f) = ExecResult.ok n s1 →
      importFeatureB b s f = (true, s1)) ∧
    importBoundariesMain invalidBackend [projPolyFeature] = (1, 0, []) ∧
    importBoundariesMain validBackend [projPolyFeature, projPolyFeature] =
      (2, 0, [Row.mk "Test Riding" "Ontario" (transformedExpr projPolyGeom)]) := by
  refine ⟨?_, by decide, by decide⟩
  intro b s f n s1 h
  unfold importFeatureB
  rw [h]

/-- C9 witness: concrete instance: the guard-filtered insert (zero rows
affected) is still reported as a True outcome. -/
theorem C9_witness :
    importFeatureB invalidBackend [] projPolyFeature = (true, []) :=
  C9_importedOvercount.1 invalidBackend [] projPolyFeature 0 [] (by decide)

/-- C10 confirmed: the StoreIndex key encoding of find-missing.py (name,
a bar separator, province concatenated into one string) is not
injective: two distinct identities, one with a bar inside the region
name, map to the same key, and the membership test of the missing-check
conflates them. -/
theorem C10_keyNotInjective :
    storeKey "Brandon|Souris" "Manitoba" = storeKey "Brandon" "Souris|Manitoba" ∧
    ("Brandon|Souris", "Manitoba") ≠ (("Brandon", "Souris|Manitoba") : String × String) ∧
    (dbSetOf [("Brandon", "Souris|Manitoba")]).contains
      (storeKey "Brandon|Souris" "Manitoba") = true := by
  refine ⟨by decide, by decide, by decide⟩

end StayInformed
